import Mathlib

set_option linter.unusedVariables false

/-!
Verification development for the ConnectAssist dashboard (`src/app.py`).

The Python program is shallowly embedded: JSON values decoded by
`response.json()` become the inductive `Json`; Python attribute and
subscript errors raised while extracting fields become `Except String`
results carrying the message `str(err)` of the raised exception; the
outcome of a `requests.post` call (a response object, or an exception
raised by the transport) is the type `PostOutcome`.  The three client
functions, the screen handlers, and the startup credential gate are
translated directly from the source.
-/

/-- JSON values as decoded by Python's `response.json()`. -/
inductive Json where
  | null
  | bool (b : Bool)
  | num (n : Int)
  | str (s : String)
  | arr (xs : List Json)
  | obj (kvs : List (String × Json))

/-- Python type name of a decoded JSON value, as it appears in
`AttributeError` and `TypeError` messages. -/
def Json.typeName : Json → String
  | .null => "NoneType"
  | .bool _ => "bool"
  | .num _ => "int"
  | .str _ => "str"
  | .arr _ => "list"
  | .obj _ => "dict"

/-- Python `value.get(key, default)`: dictionary lookup with a default;
on a non-dict value, `.get` raises `AttributeError`.  Keys of a dict
produced by `json.loads` are unique, so `List.lookup` order is immaterial. -/
def Json.getD (j : Json) (key : String) (d : Json) : Except String Json :=
  match j with
  | .obj kvs => .ok ((kvs.lookup key).getD d)
  | _ => .error ("\x27" ++ j.typeName ++ "\x27 object has no attribute \x27get\x27")

/-- Python `value[0]`: list indexing (IndexError when empty), string
indexing, dict subscription with the int key `0` (always a `KeyError`
since decoded JSON dict keys are strings), `TypeError` otherwise. -/
def Json.index0 (j : Json) : Except String Json :=
  match j with
  | .arr [] => .error ("list index out of range")
  | .arr (x :: _) => .ok x
  | .str s =>
    if s = "" then .error ("string index out of range")
    else .ok (.str (String.singleton s.front))
  | .obj _ => .error ("0")
  | _ => .error ("\x27" ++ j.typeName ++ "\x27 object is not subscriptable")

mutual

/-- Python `repr` of a decoded JSON value (string quoting simplified to
plain single quotes; no claim exercises the escaping corner cases). -/
def Json.pyRepr : Json → String
  | .null => "None"
  | .bool true => "True"
  | .bool false => "False"
  | .num n => toString n
  | .str s => "\x27" ++ s ++ "\x27"
  | .arr xs => "[" ++ Json.pyReprList xs ++ "]"
  | .obj kvs => "\x7b" ++ Json.pyReprPairs kvs ++ "\x7d"

/-- Comma-separated `repr`s of list elements. -/
def Json.pyReprList : List Json → String
  | [] => ""
  | [j] => Json.pyRepr j
  | j :: rest => Json.pyRepr j ++ ", " ++ Json.pyReprList rest

/-- Comma-separated `repr`s of dict entries. -/
def Json.pyReprPairs : List (String × Json) → String
  | [] => ""
  | [(k, v)] => "\x27" ++ k ++ "\x27: " ++ Json.pyRepr v
  | (k, v) :: rest => "\x27" ++ k ++ "\x27: " ++ Json.pyRepr v ++ ", " ++ Json.pyReprPairs rest

end

/-- Python `str()` of a decoded JSON value, as used by f-string
interpolation and `st.write`. -/
def Json.pyStr : Json → String
  | .str s => s
  | j => j.pyRepr

/-- Python `s.startswith(p)` for actual strings. -/
def strStartswith (s p : String) : Bool :=
  p.data.isPrefixOf s.data

/-- Python `value.startswith(p)`: available on strings only; on any
other value the attribute access raises `AttributeError`. -/
def Json.pyStartswith (j : Json) (p : String) : Except String Bool :=
  match j with
  | .str s => .ok (strStartswith s p)
  | _ => .error ("\x27" ++ j.typeName ++ "\x27 object has no attribute \x27startswith\x27")

/-- A settled HTTP response, as seen through the `requests.Response`
object: status code, reason phrase, final URL, raw body text, and the
result of `response.json()` (`Except.error` carries the decode-error
message when the body is not valid JSON). -/
structure HttpResponse where
  statusCode : Nat
  reason : String
  url : String
  text : String
  jsonBody : Except String Json

/-- Outcome of a `requests.post` call: either a settled response, or an
exception raised by the transport itself (connection error, timeout,
...), carrying `str(err)`.  `requests.post` never raises `HTTPError`;
that exception only arises from `raise_for_status`. -/
inductive PostOutcome where
  | response (r : HttpResponse)
  | exc (msg : String)

/-- Message of the `HTTPError` built by `requests`'
`Response.raise_for_status` (only invoked for `400 <= status < 600`). -/
def HttpResponse.httpErrorMsgOf (r : HttpResponse) : String :=
  if r.statusCode < 500 then
    toString r.statusCode ++ " Client Error: " ++ r.reason ++ " for url: " ++ r.url
  else
    toString r.statusCode ++ " Server Error: " ++ r.reason ++ " for url: " ++ r.url

/-- JSON payload of a chat-completion request: model identifier, the
single user message's content, and the tuning parameters. -/
structure Payload where
  model : String
  content : String
  max_tokens : Nat
  temperature : Rat
deriving DecidableEq

/-- A remote call issued by the client layer. -/
inductive ApiCall where
  | textCall (url : String) (p : Payload)
  | imageCall (url : String) (fieldName fileName mime : String)
deriving DecidableEq

def LLAMA_TEXT_API_URL : String := "https://api.groq.com/openai/v1/chat/completions"

def LLAMA_IMAGE_API_URL : String := "https://api.groq.com/llama3/image"

/-- Shared head of the success-path extraction of the two chat clients:
`response.json().get("choices", [{}])[0].get("message", {})`. -/
def chatMessageOf (r : HttpResponse) : Except String Json :=
  match r.jsonBody with
  | .error m => .error m
  | .ok body =>
    match Json.getD body ("choices") (Json.arr [Json.obj []]) with
    | .error m => .error m
    | .ok choices =>
      match Json.index0 choices with
      | .error m => .error m
      | .ok c0 => Json.getD c0 ("message") (Json.obj [])

/-- Success-path extraction of `get_llama_text_response`:
`response.json().get("choices", [{}])[0].get("message", {}).get("content", "No response received.")`. -/
def textExtract (r : HttpResponse) : Except String Json :=
  match chatMessageOf r with
  | .error m => .error m
  | .ok message => Json.getD message ("content") (Json.str ("No response received."))

/-- Success-path extraction of `get_llama_image_response`:
`response.json().get("response", "No response received.")`. -/
def imageExtract (r : HttpResponse) : Except String Json :=
  match r.jsonBody with
  | .error m => .error m
  | .ok body => Json.getD body ("response") (Json.str ("No response received."))

/-- Success-path extraction of `analyze_network_data`: as `textExtract`
but with the fallback `"No analysis received."`. -/
def analyzeExtract (r : HttpResponse) : Except String Json :=
  match chatMessageOf r with
  | .error m => .error m
  | .ok message => Json.getD message ("content") (Json.str ("No analysis received."))

/-- The string `f"HTTP error occurred: {http_err} - {response.text}"`
returned by every client's `HTTPError` handler. -/
def httpErrStringOf (r : HttpResponse) : String :=
  "HTTP error occurred: " ++ r.httpErrorMsgOf ++ " - " ++ r.text

/-- `get_llama_text_response(text, model)` (`src/app.py:30-53`).  Returns
the issued request together with the value produced for the transport
outcome `o`.  In the source `model` defaults to `"llama-3.2-chat"`;
call sites here pass it explicitly. -/
def get_llama_text_response (text model : String) (o : PostOutcome) : ApiCall × Json :=
  (.textCall LLAMA_TEXT_API_URL ⟨model, text, 150, 7/10⟩,
   match o with
   | .exc m => .str ("An error occurred: " ++ m)
   | .response r =>
     if 400 ≤ r.statusCode ∧ r.statusCode < 600 then
       .str (httpErrStringOf r)
     else
       match textExtract r with
       | .ok v => v
       | .error m => .str ("An error occurred: " ++ m))

/-- `get_llama_image_response(image_bytes, model)` (`src/app.py:55-73`).
The `model` parameter is accepted and unused, as in the source; the
request carries the multipart file field. -/
def get_llama_image_response (model : String) (o : PostOutcome) : ApiCall × Json :=
  (.imageCall LLAMA_IMAGE_API_URL ("image_file") ("image.png") ("image/png"),
   match o with
   | .exc m => .str ("An error occurred: " ++ m)
   | .response r =>
     if 400 ≤ r.statusCode ∧ r.statusCode < 600 then
       .str (httpErrStringOf r)
     else
       match imageExtract r with
       | .ok v => v
       | .error m => .str ("An error occurred: " ++ m))

/-- Prompt template of `analyze_network_data` (`src/app.py:87`). -/
def analysisPromptOf (summary : String) : String :=
  "Analyze the following network performance data summary:\n" ++ summary

/-- `analyze_network_data(data, model)` (`src/app.py:75-99`).  `summary`
stands for `data.describe().to_json()`: the pandas serialization is an
external-library step, so datasets enter the model only through the
summary string it produces. -/
def analyze_network_data (summary model : String) (o : PostOutcome) : ApiCall × Json :=
  (.textCall LLAMA_TEXT_API_URL ⟨model, analysisPromptOf summary, 200, 1/2⟩,
   match o with
   | .exc m => .str ("An error occurred: " ++ m)
   | .response r =>
     if 400 ≤ r.statusCode ∧ r.statusCode < 600 then
       .str (httpErrStringOf r)
     else
       match analyzeExtract r with
       | .ok v => v
       | .error m => .str ("An error occurred: " ++ m))

/-- Output of one screen interaction: a local warning (`st.warning`), an
error box (`st.error`), or a success banner followed by the written body
(`st.success` + `st.write`). -/
inductive Rendered where
  | warning (msg : String)
  | errorBox (v : Json)
  | successBox (banner : String) (body : Json)

/-- One of the two metric widgets of the Network Insights screen. -/
inductive Widget where
  | lineChart (column : String)
  | barChart (column : String)
  | notice (msg : String)
deriving DecidableEq

/-- Text branch of `troubleshooting_assistant` (`src/app.py:143-153`),
after the button press: the issued calls and the rendered output.  An
`Except.error` models an uncaught Python exception escaping the screen
(possible only when the client returns a non-string value, since
`.startswith` is then an `AttributeError`). -/
def troubleshooting_assistant_text (issue_text : String) (o : PostOutcome) :
    List ApiCall × Except String Rendered :=
  if issue_text ≠ "" then
    ([(get_llama_text_response issue_text ("llama-3.2-chat") o).1],
      match (get_llama_text_response issue_text ("llama-3.2-chat") o).2.pyStartswith ("Error") with
      | .error m => .error m
      | .ok true => .ok (.errorBox ((get_llama_text_response issue_text ("llama-3.2-chat") o).2))
      | .ok false =>
        .ok (.successBox ("**Diagnostic Suggestions:**")
          ((get_llama_text_response issue_text ("llama-3.2-chat") o).2)))
  else
    ([], .ok (.warning ("Please enter a description of the issue.")))

/-- Image branch of `troubleshooting_assistant` (`src/app.py:160-170`),
after an image is uploaded and the button pressed. -/
def troubleshooting_assistant_image (o : PostOutcome) :
    List ApiCall × Except String Rendered :=
  ([(get_llama_image_response ("llama-3.2-image") o).1],
    match (get_llama_image_response ("llama-3.2-image") o).2.pyStartswith ("Error") with
    | .error m => .error m
    | .ok true => .ok (.errorBox ((get_llama_image_response ("llama-3.2-image") o).2))
    | .ok false =>
      .ok (.successBox ("**Image Analysis:**")
        ((get_llama_image_response ("llama-3.2-image") o).2)))

/-- Metric widgets of `network_insights` (`src/app.py:214-227`): the
left column renders a line chart of `signal_strength` or a notice, the
right column a bar chart of `bandwidth_usage` or a notice.  `cols` is
the parsed dataset's column list. -/
def network_insights_metrics (cols : List String) : Widget × Widget :=
  ((if ("signal_strength") ∈ cols then .lineChart ("signal_strength")
    else .notice ("**signal_strength** column not found.")),
   (if ("bandwidth_usage") ∈ cols then .barChart ("bandwidth_usage")
    else .notice ("**bandwidth_usage** column not found.")))

/-- Analysis branch of `network_insights` (`src/app.py:229-236`), after
the button press on a successfully parsed dataset. -/
def network_insights_analyze (summary : String) (o : PostOutcome) :
    List ApiCall × Except String Rendered :=
  ([(analyze_network_data summary ("llama-3.2-analysis") o).1],
    match (analyze_network_data summary ("llama-3.2-analysis") o).2.pyStartswith ("Error") with
    | .error m => .error m
    | .ok true => .ok (.errorBox ((analyze_network_data summary ("llama-3.2-analysis") o).2))
    | .ok false =>
      .ok (.successBox ("**Analysis Results:**")
        ((analyze_network_data summary ("llama-3.2-analysis") o).2)))

/-- `connectivity_solutions` (`src/app.py:244-266`), after the button
press.  `report_text` is the text area's value, `has_image` whether a
file was uploaded; `tOut` and `iOut` are the transport outcomes of the
two sequential calls.  The combined recommendation is a genuine string
(f-string interpolation), so no exception can escape this screen. -/
def connectivity_solutions (report_text : String) (has_image : Bool)
    (tOut iOut : PostOutcome) : List ApiCall × Rendered :=
  if report_text ≠ "" ∧ has_image = true then
    ([(get_llama_text_response report_text ("llama-3.2-chat") tOut).1,
      (get_llama_image_response ("llama-3.2-image") iOut).1],
      if strStartswith
          ((get_llama_text_response report_text ("llama-3.2-chat") tOut).2.pyStr ++ "\n\n" ++
            (get_llama_image_response ("llama-3.2-image") iOut).2.pyStr) ("Error") then
        .errorBox (.str
          ((get_llama_text_response report_text ("llama-3.2-chat") tOut).2.pyStr ++ "\n\n" ++
            (get_llama_image_response ("llama-3.2-image") iOut).2.pyStr))
      else
        .successBox ("**Recommendations:**") (.str
          ((get_llama_text_response report_text ("llama-3.2-chat") tOut).2.pyStr ++ "\n\n" ++
            (get_llama_image_response ("llama-3.2-image") iOut).2.pyStr)))
  else
    ([], .warning ("Please provide both user reports and site photos."))

/-- Error message shown when the credential is missing (`src/app.py:23`). -/
def apiKeyMissingMsg : String :=
  "API Key not found. Please set the GROQ_API_KEY environment variable."

/-- Result of module-level startup: either halted before any screen
(`st.error` + `st.stop`), or control reaches `main`'s screen dispatch. -/
inductive AppStart where
  | halted (msg : String)
  | dispatch
deriving DecidableEq

/-- Startup credential gate (`src/app.py:20-24`): `os.getenv` yields
`none` when the variable is unset; `if not API_KEY` is Python
truthiness, so the empty string also halts. -/
def app_startup (apiKey : Option String) : AppStart :=
  match apiKey with
  | none => .halted apiKeyMissingMsg
  | some s => if s = "" then .halted apiKeyMissingMsg else .dispatch

/-- Whether an extraction step failed (raised an exception). -/
def extractFailed : Except String Json → Bool
  | .ok _ => false
  | .error _ => true

/-- Outcomes on which `get_llama_text_response` takes an error branch. -/
def textFailureOutcome : PostOutcome → Bool
  | .exc _ => true
  | .response r =>
    decide (400 ≤ r.statusCode ∧ r.statusCode < 600) || extractFailed (textExtract r)

/-- Outcomes on which `get_llama_image_response` takes an error branch. -/
def imageFailureOutcome : PostOutcome → Bool
  | .exc _ => true
  | .response r =>
    decide (400 ≤ r.statusCode ∧ r.statusCode < 600) || extractFailed (imageExtract r)

/-- Outcomes on which `analyze_network_data` takes an error branch. -/
def analyzeFailureOutcome : PostOutcome → Bool
  | .exc _ => true
  | .response r =>
    decide (400 ≤ r.statusCode ∧ r.statusCode < 600) || extractFailed (analyzeExtract r)

/-! ### Helper lemmas about strings and the client functions -/

theorem str_append_assoc (a b c : String) : a ++ b ++ c = a ++ (b ++ c) := by
  apply String.ext
  simp [String.data_append]

theorem sw_append_true (s t p : String) (h : strStartswith s p = true) :
    strStartswith (s ++ t) p = true := by
  simp [strStartswith, List.isPrefixOf_iff_prefix, String.data_append] at *
  exact h.trans (List.prefix_append s.data t.data)

theorem sw_append_false (s t p : String) (h : strStartswith s p = false)
    (hl : p.data.length ≤ s.data.length) : strStartswith (s ++ t) p = false := by
  cases hsw : strStartswith (s ++ t) p with
  | false => rfl
  | true =>
    exfalso
    have h2 : p.data <+: s.data ++ t.data := by
      simpa [strStartswith, List.isPrefixOf_iff_prefix, String.data_append] using hsw
    have h3 : p.data <+: s.data :=
      List.prefix_of_prefix_length_le h2 (List.prefix_append s.data t.data) hl
    have h4 : strStartswith s p = true := by
      simpa [strStartswith, List.isPrefixOf_iff_prefix] using h3
    rw [h] at h4
    exact Bool.noConfusion h4

theorem pyStr_str (s : String) : Json.pyStr (.str s) = s := rfl

theorem http_string_shape (r : HttpResponse) :
    httpErrStringOf r = "HTTP error occurred: " ++ (r.httpErrorMsgOf ++ (" - " ++ r.text)) := by
  simp [httpErrStringOf, str_append_assoc]

theorem http_string_has_body (r : HttpResponse) :
    ∃ p, httpErrStringOf r = p ++ r.text :=
  ⟨"HTTP error occurred: " ++ r.httpErrorMsgOf ++ " - ", rfl⟩

theorem httpPre_sw (t : String) :
    strStartswith ("HTTP error occurred: " ++ t) ("HTTP error occurred: ") = true :=
  sw_append_true _ t _ (by decide)

theorem httpPre_not_error_sw (t : String) :
    strStartswith ("HTTP error occurred: " ++ t) ("Error") = false :=
  sw_append_false _ t _ (by decide) (by decide)

theorem anPre_sw (t : String) :
    strStartswith ("An error occurred: " ++ t) ("An error occurred: ") = true :=
  sw_append_true _ t _ (by decide)

theorem anPre_not_error_sw (t : String) :
    strStartswith ("An error occurred: " ++ t) ("Error") = false :=
  sw_append_false _ t _ (by decide) (by decide)

theorem text_result_exc (text model m : String) :
    (get_llama_text_response text model (.exc m)).2 = .str ("An error occurred: " ++ m) := rfl

theorem text_result_response (text model : String) (r : HttpResponse) :
    (get_llama_text_response text model (.response r)).2 =
      if 400 ≤ r.statusCode ∧ r.statusCode < 600 then Json.str (httpErrStringOf r)
      else
        match textExtract r with
        | .ok v => v
        | .error m => Json.str ("An error occurred: " ++ m) := rfl

theorem text_result_http (text model : String) (r : HttpResponse)
    (h : 400 ≤ r.statusCode ∧ r.statusCode < 600) :
    (get_llama_text_response text model (.response r)).2 = .str (httpErrStringOf r) := by
  rw [text_result_response, if_pos h]

theorem text_result_ok (text model : String) (r : HttpResponse) (v : Json)
    (h : ¬(400 ≤ r.statusCode ∧ r.statusCode < 600)) (hx : textExtract r = .ok v) :
    (get_llama_text_response text model (.response r)).2 = v := by
  rw [text_result_response, if_neg h, hx]

theorem text_result_err (text model : String) (r : HttpResponse) (m : String)
    (h : ¬(400 ≤ r.statusCode ∧ r.statusCode < 600)) (hx : textExtract r = .error m) :
    (get_llama_text_response text model (.response r)).2 = .str ("An error occurred: " ++ m) := by
  rw [text_result_response, if_neg h, hx]

theorem image_result_exc (model m : String) :
    (get_llama_image_response model (.exc m)).2 = .str ("An error occurred: " ++ m) := rfl

theorem image_result_response (model : String) (r : HttpResponse) :
    (get_llama_image_response model (.response r)).2 =
      if 400 ≤ r.statusCode ∧ r.statusCode < 600 then Json.str (httpErrStringOf r)
      else
        match imageExtract r with
        | .ok v => v
        | .error m => Json.str ("An error occurred: " ++ m) := rfl

theorem image_result_http (model : String) (r : HttpResponse)
    (h : 400 ≤ r.statusCode ∧ r.statusCode < 600) :
    (get_llama_image_response model (.response r)).2 = .str (httpErrStringOf r) := by
  rw [image_result_response, if_pos h]

theorem image_result_ok (model : String) (r : HttpResponse) (v : Json)
    (h : ¬(400 ≤ r.statusCode ∧ r.statusCode < 600)) (hx : imageExtract r = .ok v) :
    (get_llama_image_response model (.response r)).2 = v := by
  rw [image_result_response, if_neg h, hx]

theorem image_result_err (model : String) (r : HttpResponse) (m : String)
    (h : ¬(400 ≤ r.statusCode ∧ r.statusCode < 600)) (hx : imageExtract r = .error m) :
    (get_llama_image_response model (.response r)).2 = .str ("An error occurred: " ++ m) := by
  rw [image_result_response, if_neg h, hx]

theorem analyze_result_exc (summary model m : String) :
    (analyze_network_data summary model (.exc m)).2 = .str ("An error occurred: " ++ m) := rfl

theorem analyze_result_response (summary model : String) (r : HttpResponse) :
    (analyze_network_data summary model (.response r)).2 =
      if 400 ≤ r.statusCode ∧ r.statusCode < 600 then Json.str (httpErrStringOf r)
      else
        match analyzeExtract r with
        | .ok v => v
        | .error m => Json.str ("An error occurred: " ++ m) := rfl

theorem analyze_result_http (summary model : String) (r : HttpResponse)
    (h : 400 ≤ r.statusCode ∧ r.statusCode < 600) :
    (analyze_network_data summary model (.response r)).2 = .str (httpErrStringOf r) := by
  rw [analyze_result_response, if_pos h]

theorem analyze_result_ok (summary model : String) (r : HttpResponse) (v : Json)
    (h : ¬(400 ≤ r.statusCode ∧ r.statusCode < 600)) (hx : analyzeExtract r = .ok v) :
    (analyze_network_data summary model (.response r)).2 = v := by
  rw [analyze_result_response, if_neg h, hx]

theorem analyze_result_err (summary model : String) (r : HttpResponse) (m : String)
    (h : ¬(400 ≤ r.statusCode ∧ r.statusCode < 600)) (hx : analyzeExtract r = .error m) :
    (analyze_network_data summary model (.response r)).2 = .str ("An error occurred: " ++ m) := by
  rw [analyze_result_response, if_neg h, hx]

theorem text_failure_string (text model : String) (o : PostOutcome)
    (h : textFailureOutcome o = true) :
    ∃ t, (get_llama_text_response text model o).2 = .str ("HTTP error occurred: " ++ t) ∨
      (get_llama_text_response text model o).2 = .str ("An error occurred: " ++ t) := by
  cases o with
  | exc m => exact ⟨m, Or.inr (text_result_exc text model m)⟩
  | response r =>
    by_cases hs : 400 ≤ r.statusCode ∧ r.statusCode < 600
    · refine ⟨r.httpErrorMsgOf ++ (" - " ++ r.text), Or.inl ?_⟩
      rw [text_result_http text model r hs, http_string_shape]
    · have hx : extractFailed (textExtract r) = true := by
        simp only [textFailureOutcome, decide_eq_false hs, Bool.false_or] at h
        exact h
      cases hxe : textExtract r with
      | ok v => rw [hxe] at hx; exact absurd hx (by simp [extractFailed])
      | error m => exact ⟨m, Or.inr (text_result_err text model r m hs hxe)⟩

theorem image_failure_string (model : String) (o : PostOutcome)
    (h : imageFailureOutcome o = true) :
    ∃ t, (get_llama_image_response model o).2 = .str ("HTTP error occurred: " ++ t) ∨
      (get_llama_image_response model o).2 = .str ("An error occurred: " ++ t) := by
  cases o with
  | exc m => exact ⟨m, Or.inr (image_result_exc model m)⟩
  | response r =>
    by_cases hs : 400 ≤ r.statusCode ∧ r.statusCode < 600
    · refine ⟨r.httpErrorMsgOf ++ (" - " ++ r.text), Or.inl ?_⟩
      rw [image_result_http model r hs, http_string_shape]
    · have hx : extractFailed (imageExtract r) = true := by
        simp only [imageFailureOutcome, decide_eq_false hs, Bool.false_or] at h
        exact h
      cases hxe : imageExtract r with
      | ok v => rw [hxe] at hx; exact absurd hx (by simp [extractFailed])
      | error m => exact ⟨m, Or.inr (image_result_err model r m hs hxe)⟩

theorem analyze_failure_string (summary model : String) (o : PostOutcome)
    (h : analyzeFailureOutcome o = true) :
    ∃ t, (analyze_network_data summary model o).2 = .str ("HTTP error occurred: " ++ t) ∨
      (analyze_network_data summary model o).2 = .str ("An error occurred: " ++ t) := by
  cases o with
  | exc m => exact ⟨m, Or.inr (analyze_result_exc summary model m)⟩
  | response r =>
    by_cases hs : 400 ≤ r.statusCode ∧ r.statusCode < 600
    · refine ⟨r.httpErrorMsgOf ++ (" - " ++ r.text), Or.inl ?_⟩
      rw [analyze_result_http summary model r hs, http_string_shape]
    · have hx : extractFailed (analyzeExtract r) = true := by
        simp only [analyzeFailureOutcome, decide_eq_false hs, Bool.false_or] at h
        exact h
      cases hxe : analyzeExtract r with
      | ok v => rw [hxe] at hx; exact absurd hx (by simp [extractFailed])
      | error m => exact ⟨m, Or.inr (analyze_result_err summary model r m hs hxe)⟩

theorem failure_string_facts (t s : String)
    (h : s = "HTTP error occurred: " ++ t ∨ s = "An error occurred: " ++ t) :
    (strStartswith s ("HTTP error occurred: ") = true ∨
      strStartswith s ("An error occurred: ") = true) ∧
    strStartswith s ("Error") = false := by
  cases h with
  | inl h => subst h; exact ⟨Or.inl (httpPre_sw t), httpPre_not_error_sw t⟩
  | inr h => subst h; exact ⟨Or.inr (anPre_sw t), anPre_not_error_sw t⟩

theorem extract_pair (r : HttpResponse) :
    analyzeExtract r = textExtract r ∨
      (analyzeExtract r = .ok (.str ("No analysis received.")) ∧
        textExtract r = .ok (.str ("No response received."))) := by
  unfold analyzeExtract textExtract
  cases h : chatMessageOf r with
  | error m => left; rfl
  | ok message =>
    cases message with
    | obj kvs =>
      cases hk : kvs.lookup ("content") with
      | some v => left; simp [Json.getD, hk]
      | none => right; constructor <;> simp [Json.getD, hk]
    | null => left; rfl
    | bool b => left; rfl
    | num n => left; rfl
    | str s => left; rfl
    | arr xs => left; rfl

/-! ### Claim theorems -/

/-- C7: for every 2xx response whose JSON body contains a valid
`choices[0].message.content` string, the text-submission operation
returns exactly that content, unmodified. -/
theorem C7_success_returns_content (text model : String) (r : HttpResponse)
    (kvs c0kvs mkvs : List (String × Json)) (rest : List Json) (c : String)
    (h2xx : 200 ≤ r.statusCode ∧ r.statusCode < 300)
    (hbody : r.jsonBody = .ok (.obj kvs))
    (hch : kvs.lookup ("choices") = some (.arr (.obj c0kvs :: rest)))
    (hmsg : c0kvs.lookup ("message") = some (.obj mkvs))
    (hc : mkvs.lookup ("content") = some (.str c)) :
    (get_llama_text_response text model (.response r)).2 = .str c := by
  have hs : ¬(400 ≤ r.statusCode ∧ r.statusCode < 600) := by omega
  apply text_result_ok text model r _ hs
  unfold textExtract chatMessageOf
  rw [hbody]
  simp [Json.getD, hch, Json.index0, hmsg, hc]

/-- Witness for C7 at a concrete well-formed success response. -/
theorem C7_success_returns_content_witness :
    (get_llama_text_response ("signal drops every evening") ("llama-3.2-chat")
      (.response ⟨200, "OK", LLAMA_TEXT_API_URL, "body",
        .ok (.obj [("choices",
          .arr [.obj [("message", .obj [("content", .str ("Check the antenna."))])]])])⟩)).2
      = .str ("Check the antenna.") :=
  C7_success_returns_content _ _ _ _ _ _ _ ("Check the antenna.")
    (by decide) rfl rfl rfl rfl

/-- C3 (amended): for a 2xx response, the fixed fallback
`"No response received."` is returned when the body has no `"choices"`
key, or the first choice is a dict without `"message"`, or the message
dict has no `"content"`; a body with an EMPTY `"choices"` list instead
raises `IndexError`, which the generic handler turns into
`"An error occurred: list index out of range"`. -/
theorem C3_missing_field_behaviour (text model : String) (r : HttpResponse)
    (kvs : List (String × Json))
    (h2xx : 200 ≤ r.statusCode ∧ r.statusCode < 300)
    (hbody : r.jsonBody = .ok (.obj kvs)) :
    (kvs.lookup ("choices") = none →
      (get_llama_text_response text model (.response r)).2 = .str ("No response received.")) ∧
    (∀ c0kvs rest, kvs.lookup ("choices") = some (.arr (.obj c0kvs :: rest)) →
      c0kvs.lookup ("message") = none →
      (get_llama_text_response text model (.response r)).2 = .str ("No response received.")) ∧
    (∀ c0kvs rest mkvs, kvs.lookup ("choices") = some (.arr (.obj c0kvs :: rest)) →
      c0kvs.lookup ("message") = some (.obj mkvs) →
      mkvs.lookup ("content") = none →
      (get_llama_text_response text model (.response r)).2 = .str ("No response received.")) ∧
    (kvs.lookup ("choices") = some (.arr []) →
      (get_llama_text_response text model (.response r)).2 =
        .str ("An error occurred: list index out of range")) := by
  have hs : ¬(400 ≤ r.statusCode ∧ r.statusCode < 600) := by omega
  refine ⟨fun hch => ?_, fun c0kvs rest hch hm => ?_, fun c0kvs rest mkvs hch hm hc => ?_,
    fun hch => ?_⟩
  · apply text_result_ok text model r _ hs
    unfold textExtract chatMessageOf
    rw [hbody]
    simp [Json.getD, hch, Json.index0]
  · apply text_result_ok text model r _ hs
    unfold textExtract chatMessageOf
    rw [hbody]
    simp [Json.getD, hch, Json.index0, hm]
  · apply text_result_ok text model r _ hs
    unfold textExtract chatMessageOf
    rw [hbody]
    simp [Json.getD, hch, Json.index0, hm, hc]
  · have hxe : textExtract r = .error ("list index out of range") := by
      unfold textExtract chatMessageOf
      rw [hbody]
      simp [Json.getD, hch, Json.index0]
    rw [text_result_err text model r ("list index out of range") hs hxe]
    exact congrArg Json.str (by decide)

/-- Witness for C3's amended statement: body `{}` yields the fallback. -/
theorem C3_missing_field_behaviour_witness :
    (get_llama_text_response ("p") ("llama-3.2-chat")
      (.response ⟨200, "OK", LLAMA_TEXT_API_URL, "body", .ok (.obj [])⟩)).2
      = .str ("No response received.") :=
  (C3_missing_field_behaviour ("p") ("llama-3.2-chat") _ [] (by decide) rfl).1 rfl

/-- Counterexample to C3 as stated: a 2xx response whose body is
`{"choices": []}` does NOT return the fallback; the `[0]` subscript
raises `IndexError` and the generic handler returns
`"An error occurred: list index out of range"`. -/
theorem C3_empty_choices_counterexample :
    (200 ≤ 200 ∧ 200 < 300) ∧
    (get_llama_text_response ("p") ("llama-3.2-chat")
      (.response ⟨200, "OK", LLAMA_TEXT_API_URL, "body",
        .ok (.obj [("choices", .arr [])])⟩)).2
      = .str ("An error occurred: list index out of range") ∧
    (get_llama_text_response ("p") ("llama-3.2-chat")
      (.response ⟨200, "OK", LLAMA_TEXT_API_URL, "body",
        .ok (.obj [("choices", .arr [])])⟩)).2
      ≠ .str ("No response received.") := by
  have hmid : (get_llama_text_response ("p") ("llama-3.2-chat")
      (.response ⟨200, "OK", LLAMA_TEXT_API_URL, "body",
        .ok (.obj [("choices", .arr [])])⟩)).2
      = Json.str ("An error occurred: list index out of range") := rfl
  refine ⟨by omega, hmid, ?_⟩
  intro h
  rw [hmid] at h
  injection h with h2
  exact absurd h2 (by decide)

/-- C8: on the Network Insights screen, with both metric columns present
both charts render; with exactly one column missing, exactly one
"column not found" notice is shown and the other chart renders normally. -/
theorem C8_insights_charts (cols : List String) :
    (("signal_strength") ∈ cols → ("bandwidth_usage") ∈ cols →
      network_insights_metrics cols =
        (.lineChart ("signal_strength"), .barChart ("bandwidth_usage"))) ∧
    (("signal_strength") ∈ cols → ("bandwidth_usage") ∉ cols →
      network_insights_metrics cols =
        (.lineChart ("signal_strength"), .notice ("**bandwidth_usage** column not found."))) ∧
    (("signal_strength") ∉ cols → ("bandwidth_usage") ∈ cols →
      network_insights_metrics cols =
        (.notice ("**signal_strength** column not found."), .barChart ("bandwidth_usage"))) := by
  refine ⟨fun h1 h2 => ?_, fun h1 h2 => ?_, fun h1 h2 => ?_⟩ <;>
    simp [network_insights_metrics, h1, h2]

/-- Witness for C8 on concrete column lists covering all three cases. -/
theorem C8_insights_charts_witness :
    network_insights_metrics (["signal_strength", "bandwidth_usage"]) =
      (.lineChart ("signal_strength"), .barChart ("bandwidth_usage")) ∧
    network_insights_metrics (["signal_strength", "latency"]) =
      (.lineChart ("signal_strength"), .notice ("**bandwidth_usage** column not found.")) ∧
    network_insights_metrics (["latency", "bandwidth_usage"]) =
      (.notice ("**signal_strength** column not found."), .barChart ("bandwidth_usage")) :=
  ⟨(C8_insights_charts _).1 (by decide) (by decide),
   (C8_insights_charts _).2.1 (by decide) (by decide),
   (C8_insights_charts _).2.2 (by decide) (by decide)⟩

/-- C9: an unset or empty bearer-credential environment variable halts
startup with the visible credential error before any screen, and no
screen dispatch is reachable; a non-empty credential proceeds to screen
dispatch. -/
theorem C9_startup_credential_gate (k : Option String) :
    ((k = none ∨ k = some "") →
      app_startup k = .halted apiKeyMissingMsg ∧ app_startup k ≠ AppStart.dispatch) ∧
    (∀ s, k = some s → s ≠ "" → app_startup k = .dispatch) := by
  constructor
  · rintro (rfl | rfl) <;> exact ⟨rfl, by simp [app_startup]⟩
  · rintro s rfl hs
    simp [app_startup, hs]

/-- Witness for C9: unset halts, a concrete non-empty key dispatches. -/
theorem C9_startup_credential_gate_witness :
    (app_startup none = .halted apiKeyMissingMsg ∧
      app_startup none ≠ AppStart.dispatch) ∧
    app_startup (some ("gsk_abc")) = .dispatch :=
  ⟨(C9_startup_credential_gate none).1 (Or.inl rfl),
   (C9_startup_credential_gate (some ("gsk_abc"))).2 _ rfl (by decide)⟩

theorem text_result_paths (text model : String) (o : PostOutcome) :
    (∃ t, (get_llama_text_response text model o).2 = .str ("HTTP error occurred: " ++ t)) ∨
    (∃ t, (get_llama_text_response text model o).2 = .str ("An error occurred: " ++ t)) ∨
    (∃ r v, o = .response r ∧ textExtract r = .ok v ∧
      (get_llama_text_response text model o).2 = v) := by
  cases o with
  | exc m => exact Or.inr (Or.inl ⟨m, text_result_exc text model m⟩)
  | response r =>
    by_cases hs : 400 ≤ r.statusCode ∧ r.statusCode < 600
    · refine Or.inl ⟨r.httpErrorMsgOf ++ (" - " ++ r.text), ?_⟩
      rw [text_result_http text model r hs, http_string_shape]
    · cases hxe : textExtract r with
      | ok v => exact Or.inr (Or.inr ⟨r, v, rfl, hxe, text_result_ok text model r v hs hxe⟩)
      | error m => exact Or.inr (Or.inl ⟨m, text_result_err text model r m hs hxe⟩)

theorem image_result_paths (model : String) (o : PostOutcome) :
    (∃ t, (get_llama_image_response model o).2 = .str ("HTTP error occurred: " ++ t)) ∨
    (∃ t, (get_llama_image_response model o).2 = .str ("An error occurred: " ++ t)) ∨
    (∃ r v, o = .response r ∧ imageExtract r = .ok v ∧
      (get_llama_image_response model o).2 = v) := by
  cases o with
  | exc m => exact Or.inr (Or.inl ⟨m, image_result_exc model m⟩)
  | response r =>
    by_cases hs : 400 ≤ r.statusCode ∧ r.statusCode < 600
    · refine Or.inl ⟨r.httpErrorMsgOf ++ (" - " ++ r.text), ?_⟩
      rw [image_result_http model r hs, http_string_shape]
    · cases hxe : imageExtract r with
      | ok v => exact Or.inr (Or.inr ⟨r, v, rfl, hxe, image_result_ok model r v hs hxe⟩)
      | error m => exact Or.inr (Or.inl ⟨m, image_result_err model r m hs hxe⟩)

theorem analyze_result_paths (summary model : String) (o : PostOutcome) :
    (∃ t, (analyze_network_data summary model o).2 = .str ("HTTP error occurred: " ++ t)) ∨
    (∃ t, (analyze_network_data summary model o).2 = .str ("An error occurred: " ++ t)) ∨
    (∃ r v, o = .response r ∧ analyzeExtract r = .ok v ∧
      (analyze_network_data summary model o).2 = v) := by
  cases o with
  | exc m => exact Or.inr (Or.inl ⟨m, analyze_result_exc summary model m⟩)
  | response r =>
    by_cases hs : 400 ≤ r.statusCode ∧ r.statusCode < 600
    · refine Or.inl ⟨r.httpErrorMsgOf ++ (" - " ++ r.text), ?_⟩
      rw [analyze_result_http summary model r hs, http_string_shape]
    · cases hxe : analyzeExtract r with
      | ok v => exact Or.inr (Or.inr ⟨r, v, rfl, hxe, analyze_result_ok summary model r v hs hxe⟩)
      | error m => exact Or.inr (Or.inl ⟨m, analyze_result_err summary model r m hs hxe⟩)

theorem failure_string_len (t s : String)
    (h : s = "HTTP error occurred: " ++ t ∨ s = "An error occurred: " ++ t) :
    ("Error" : String).data.length ≤ s.data.length := by
  have h5 : ("Error" : String).data.length = 5 := by decide
  have h21 : ("HTTP error occurred: " : String).data.length = 21 := by decide
  have h19 : ("An error occurred: " : String).data.length = 19 := by decide
  cases h with
  | inl h =>
    subst h
    rw [String.data_append, List.length_append]
    omega
  | inr h =>
    subst h
    rw [String.data_append, List.length_append]
    omega

theorem failure_result_shape (j : Json) (t : String)
    (h : j = .str ("HTTP error occurred: " ++ t) ∨ j = .str ("An error occurred: " ++ t)) :
    ∃ s, j = .str s ∧
      (strStartswith s ("HTTP error occurred: ") = true ∨
        strStartswith s ("An error occurred: ") = true) ∧
      strStartswith s ("Error") = false ∧
      ("Error" : String).data.length ≤ s.data.length := by
  cases h with
  | inl h =>
    exact ⟨_, h, Or.inl (httpPre_sw t), httpPre_not_error_sw t,
      failure_string_len t _ (Or.inl rfl)⟩
  | inr h =>
    exact ⟨_, h, Or.inr (anPre_sw t), anPre_not_error_sw t,
      failure_string_len t _ (Or.inr rfl)⟩

theorem sw_false_two_appends (s u p : String) (h : strStartswith s p = false)
    (hl : p.data.length ≤ s.data.length) :
    strStartswith (s ++ "\n\n" ++ u) p = false := by
  apply sw_append_false
  · exact sw_append_false s _ p h hl
  · rw [String.data_append, List.length_append]
    omega

/-- C5 (amended): for every response whose status lies in `[400, 600)` —
exactly the statuses for which `raise_for_status` raises `HTTPError` —
each of the three client operations returns one and the same string,
which starts with "HTTP error occurred" and contains the raw response
body; non-2xx statuses outside that range (for example 3xx) are not
routed to this handler. -/
theorem C5_http_error_statuses (text model summary : String) (r : HttpResponse)
    (h4 : 400 ≤ r.statusCode) (h6 : r.statusCode < 600) :
    ∃ s, (get_llama_text_response text model (.response r)).2 = .str s ∧
      (get_llama_image_response model (.response r)).2 = .str s ∧
      (analyze_network_data summary model (.response r)).2 = .str s ∧
      strStartswith s ("HTTP error occurred") = true ∧
      ∃ p, s = p ++ r.text := by
  refine ⟨httpErrStringOf r, text_result_http _ _ _ ⟨h4, h6⟩,
    image_result_http _ _ ⟨h4, h6⟩, analyze_result_http _ _ _ ⟨h4, h6⟩,
    ?_, http_string_has_body r⟩
  rw [http_string_shape]
  exact sw_append_true _ _ _ (by decide)

/-- Witness for C5's amended statement at a concrete 404 response. -/
theorem C5_http_error_statuses_witness :
    (400 ≤ 404 ∧ 404 < 600) ∧
    ∃ s, (get_llama_text_response ("p") ("llama-3.2-chat")
        (.response ⟨404, "Not Found", LLAMA_TEXT_API_URL, "denied", .error ("nojson")⟩)).2
        = .str s ∧
      (get_llama_image_response ("llama-3.2-chat")
        (.response ⟨404, "Not Found", LLAMA_TEXT_API_URL, "denied", .error ("nojson")⟩)).2
        = .str s ∧
      (analyze_network_data ("sum") ("llama-3.2-chat")
        (.response ⟨404, "Not Found", LLAMA_TEXT_API_URL, "denied", .error ("nojson")⟩)).2
        = .str s ∧
      strStartswith s ("HTTP error occurred") = true ∧
      ∃ p, s = p ++ ("denied") :=
  ⟨by omega,
   C5_http_error_statuses ("p") ("llama-3.2-chat") ("sum")
     ⟨404, "Not Found", LLAMA_TEXT_API_URL, "denied", .error ("nojson")⟩
     (by decide) (by decide)⟩

/-- Counterexample to C5 as stated: a 303 response is non-2xx, yet
`raise_for_status` raises only for 4xx/5xx, so the text client returns
the parsed content, not a string starting with "HTTP error occurred". -/
theorem C5_non2xx_counterexample :
    (¬(200 ≤ 303 ∧ 303 < 300)) ∧
    (get_llama_text_response ("p") ("llama-3.2-chat")
      (.response ⟨303, "See Other", LLAMA_TEXT_API_URL, "body",
        .ok (.obj [("choices",
          .arr [.obj [("message", .obj [("content", .str ("hi"))])]])])⟩)).2
      = .str ("hi") ∧
    strStartswith ("hi") ("HTTP error occurred") = false :=
  ⟨by omega, rfl, by decide⟩

/-- C6: every transport-level or parsing failure (any exception other
than an HTTP status error) makes each client return a string starting
with "An error occurred"; and every call path of each client returns a
value — the HTTP-error string, an "An error occurred" string, or the
extracted success value — so no exception escapes the client boundary. -/
theorem C6_transport_errors_return_strings :
    (∀ text model m, (get_llama_text_response text model (.exc m)).2 =
      .str ("An error occurred: " ++ m)) ∧
    (∀ model m, (get_llama_image_response model (.exc m)).2 =
      .str ("An error occurred: " ++ m)) ∧
    (∀ summary model m, (analyze_network_data summary model (.exc m)).2 =
      .str ("An error occurred: " ++ m)) ∧
    (∀ text model (r : HttpResponse) em, ¬(400 ≤ r.statusCode ∧ r.statusCode < 600) →
      r.jsonBody = .error em →
      (get_llama_text_response text model (.response r)).2 =
        .str ("An error occurred: " ++ em)) ∧
    (∀ model (r : HttpResponse) em, ¬(400 ≤ r.statusCode ∧ r.statusCode < 600) →
      r.jsonBody = .error em →
      (get_llama_image_response model (.response r)).2 =
        .str ("An error occurred: " ++ em)) ∧
    (∀ summary model (r : HttpResponse) em, ¬(400 ≤ r.statusCode ∧ r.statusCode < 600) →
      r.jsonBody = .error em →
      (analyze_network_data summary model (.response r)).2 =
        .str ("An error occurred: " ++ em)) ∧
    (∀ text model o,
      (∃ t, (get_llama_text_response text model o).2 = .str ("HTTP error occurred: " ++ t)) ∨
      (∃ t, (get_llama_text_response text model o).2 = .str ("An error occurred: " ++ t)) ∨
      (∃ r v, o = .response r ∧ textExtract r = .ok v ∧
        (get_llama_text_response text model o).2 = v)) ∧
    (∀ model o,
      (∃ t, (get_llama_image_response model o).2 = .str ("HTTP error occurred: " ++ t)) ∨
      (∃ t, (get_llama_image_response model o).2 = .str ("An error occurred: " ++ t)) ∨
      (∃ r v, o = .response r ∧ imageExtract r = .ok v ∧
        (get_llama_image_response model o).2 = v)) ∧
    (∀ summary model o,
      (∃ t, (analyze_network_data summary model o).2 = .str ("HTTP error occurred: " ++ t)) ∨
      (∃ t, (analyze_network_data summary model o).2 = .str ("An error occurred: " ++ t)) ∨
      (∃ r v, o = .response r ∧ analyzeExtract r = .ok v ∧
        (analyze_network_data summary model o).2 = v)) := by
  refine ⟨text_result_exc, image_result_exc, analyze_result_exc, ?_, ?_, ?_,
    text_result_paths, image_result_paths, analyze_result_paths⟩
  · intro text model r em hs hj
    apply text_result_err text model r em hs
    unfold textExtract chatMessageOf
    rw [hj]
  · intro model r em hs hj
    apply image_result_err model r em hs
    unfold imageExtract
    rw [hj]
  · intro summary model r em hs hj
    apply analyze_result_err summary model r em hs
    unfold analyzeExtract chatMessageOf
    rw [hj]

/-- Witness for C6 at concrete transport and parse failures. -/
theorem C6_transport_errors_return_strings_witness :
    (get_llama_text_response ("p") ("llama-3.2-chat") (.exc ("Connection refused"))).2 =
      .str ("An error occurred: " ++ "Connection refused") ∧
    (get_llama_text_response ("p") ("llama-3.2-chat")
      (.response ⟨200, "OK", LLAMA_TEXT_API_URL, "not json",
        .error ("Expecting value: line 1 column 1 (char 0)")⟩)).2 =
      .str ("An error occurred: " ++ "Expecting value: line 1 column 1 (char 0)") :=
  ⟨C6_transport_errors_return_strings.1 ("p") ("llama-3.2-chat") ("Connection refused"),
   C6_transport_errors_return_strings.2.2.2.1 ("p") ("llama-3.2-chat")
     ⟨200, "OK", LLAMA_TEXT_API_URL, "not json",
       .error ("Expecting value: line 1 column 1 (char 0)")⟩
     ("Expecting value: line 1 column 1 (char 0)") (by decide) rfl⟩

/-- C2 (amended): `analyze_network_data` issues exactly the request of a
text submission carrying the analysis prompt with `max_tokens` 200 and
`temperature` 0.5, and its response handling agrees with the
text-submission operation on every outcome EXCEPT that its success
fallback is `"No analysis received."` where the text-submission
operation returns `"No response received."`; the error-string
conventions coincide. -/
theorem C2_analysis_delegates_to_text (summary text model : String) (o : PostOutcome) :
    (analyze_network_data summary model o).1 =
      .textCall LLAMA_TEXT_API_URL ⟨model, analysisPromptOf summary, 200, 1/2⟩ ∧
    ((analyze_network_data summary model o).2 = (get_llama_text_response text model o).2 ∨
      ((analyze_network_data summary model o).2 = .str ("No analysis received.") ∧
        (get_llama_text_response text model o).2 = .str ("No response received."))) := by
  refine ⟨rfl, ?_⟩
  cases o with
  | exc m => exact Or.inl rfl
  | response r =>
    by_cases hs : 400 ≤ r.statusCode ∧ r.statusCode < 600
    · left
      rw [analyze_result_http summary model r hs, text_result_http text model r hs]
    · rcases extract_pair r with heq | ⟨ha, ht⟩
      · cases hxe : textExtract r with
        | ok v =>
          left
          rw [analyze_result_ok summary model r v hs (heq.trans hxe),
            text_result_ok text model r v hs hxe]
        | error m =>
          left
          rw [analyze_result_err summary model r m hs (heq.trans hxe),
            text_result_err text model r m hs hxe]
      · exact Or.inr ⟨analyze_result_ok summary model r _ hs ha,
          text_result_ok text model r _ hs ht⟩

/-- Counterexample to C2 as stated: on a 200 response with body `{}`,
`analyze_network_data` returns its own fallback
`"No analysis received."`, while the text-submission operation applied
to the analysis prompt returns `"No response received."` — the two are
not observationally equal. -/
theorem C2_fallback_counterexample :
    (analyze_network_data ("s") ("llama-3.2-analysis")
      (.response ⟨200, "OK", LLAMA_TEXT_API_URL, "empty", .ok (.obj [])⟩)).2
      = .str ("No analysis received.") ∧
    (get_llama_text_response (analysisPromptOf ("s")) ("llama-3.2-analysis")
      (.response ⟨200, "OK", LLAMA_TEXT_API_URL, "empty", .ok (.obj [])⟩)).2
      = .str ("No response received.") ∧
    (analyze_network_data ("s") ("llama-3.2-analysis")
      (.response ⟨200, "OK", LLAMA_TEXT_API_URL, "empty", .ok (.obj [])⟩)).2
      ≠ (get_llama_text_response (analysisPromptOf ("s")) ("llama-3.2-analysis")
        (.response ⟨200, "OK", LLAMA_TEXT_API_URL, "empty", .ok (.obj [])⟩)).2 := by
  refine ⟨rfl, rfl, ?_⟩
  intro h
  have h2 : Json.str ("No analysis received.") = Json.str ("No response received.") := h
  injection h2 with h3
  exact absurd h3 (by decide)

/-- C4: on Connectivity Solutions, triggering the action with an empty
text report or no uploaded image issues no remote call and shows the
local warning; with both present, exactly one text submission and one
image submission are issued (in that order) and the rendered string is
the text result, a blank line, and the image result. -/
theorem C4_connectivity_gating (report : String) (hasImg : Bool) (tOut iOut : PostOutcome) :
    ((report = "" ∨ hasImg = false) →
      connectivity_solutions report hasImg tOut iOut =
        ([], .warning ("Please provide both user reports and site photos."))) ∧
    (report ≠ "" → hasImg = true →
      (connectivity_solutions report hasImg tOut iOut).1 =
        [.textCall LLAMA_TEXT_API_URL ⟨"llama-3.2-chat", report, 150, 7/10⟩,
         .imageCall LLAMA_IMAGE_API_URL ("image_file") ("image.png") ("image/png")] ∧
      ((connectivity_solutions report hasImg tOut iOut).2 =
          .errorBox (.str
            ((get_llama_text_response report ("llama-3.2-chat") tOut).2.pyStr ++ "\n\n" ++
              (get_llama_image_response ("llama-3.2-image") iOut).2.pyStr)) ∨
        (connectivity_solutions report hasImg tOut iOut).2 =
          .successBox ("**Recommendations:**") (.str
            ((get_llama_text_response report ("llama-3.2-chat") tOut).2.pyStr ++ "\n\n" ++
              (get_llama_image_response ("llama-3.2-image") iOut).2.pyStr)))) := by
  constructor
  · rintro (rfl | rfl) <;> simp [connectivity_solutions]
  · intro h1 h2
    subst h2
    have hcond : report ≠ "" ∧ (true : Bool) = true := ⟨h1, rfl⟩
    constructor
    · rw [connectivity_solutions, if_pos hcond]
      rfl
    · rw [connectivity_solutions, if_pos hcond]
      by_cases hsw : strStartswith
          ((get_llama_text_response report ("llama-3.2-chat") tOut).2.pyStr ++ "\n\n" ++
            (get_llama_image_response ("llama-3.2-image") iOut).2.pyStr) ("Error") = true
      · left
        simp only [hsw, if_true]
      · right
        simp only [Bool.not_eq_true] at hsw
        simp only [hsw, Bool.false_eq_true, if_false]

/-- Witness for C4 with both inputs present and two failing sub-calls. -/
theorem C4_connectivity_gating_witness :
    (connectivity_solutions ("r") true (.exc ("boom")) (.exc ("bam"))).1 =
      [.textCall LLAMA_TEXT_API_URL ⟨"llama-3.2-chat", "r", 150, 7/10⟩,
       .imageCall LLAMA_IMAGE_API_URL ("image_file") ("image.png") ("image/png")] ∧
    ((connectivity_solutions ("r") true (.exc ("boom")) (.exc ("bam"))).2 =
        .errorBox (.str
          ((get_llama_text_response ("r") ("llama-3.2-chat") (.exc ("boom"))).2.pyStr ++
            "\n\n" ++
            (get_llama_image_response ("llama-3.2-image") (.exc ("bam"))).2.pyStr)) ∨
      (connectivity_solutions ("r") true (.exc ("boom")) (.exc ("bam"))).2 =
        .successBox ("**Recommendations:**") (.str
          ((get_llama_text_response ("r") ("llama-3.2-chat") (.exc ("boom"))).2.pyStr ++
            "\n\n" ++
            (get_llama_image_response ("llama-3.2-image") (.exc ("bam"))).2.pyStr))) :=
  (C4_connectivity_gating ("r") true (.exc ("boom")) (.exc ("bam"))).2 (by decide) rfl

/-- C10 (implicit): every error string the three clients can produce
starts with "HTTP error occurred: " or "An error occurred: " (and the
success fallbacks are the fixed "No ... received." strings), none of
which starts with "Error"; consequently the screens' error-display
branches guarded by `startswith("Error")` are not taken for any
client-produced failure result, which is rendered through the success
path instead. -/
theorem C10_client_error_strings_avoid_error_branch :
    (∀ text model o, textFailureOutcome o = true →
      ∃ s, (get_llama_text_response text model o).2 = .str s ∧
        (strStartswith s ("HTTP error occurred: ") = true ∨
          strStartswith s ("An error occurred: ") = true) ∧
        strStartswith s ("Error") = false) ∧
    (∀ model o, imageFailureOutcome o = true →
      ∃ s, (get_llama_image_response model o).2 = .str s ∧
        (strStartswith s ("HTTP error occurred: ") = true ∨
          strStartswith s ("An error occurred: ") = true) ∧
        strStartswith s ("Error") = false) ∧
    (∀ summary model o, analyzeFailureOutcome o = true →
      ∃ s, (analyze_network_data summary model o).2 = .str s ∧
        (strStartswith s ("HTTP error occurred: ") = true ∨
          strStartswith s ("An error occurred: ") = true) ∧
        strStartswith s ("Error") = false) ∧
    strStartswith ("No response received.") ("Error") = false ∧
    strStartswith ("No analysis received.") ("Error") = false ∧
    (∀ text o, text ≠ "" → textFailureOutcome o = true →
      ∃ s, troubleshooting_assistant_text text o =
        ([.textCall LLAMA_TEXT_API_URL ⟨"llama-3.2-chat", text, 150, 7/10⟩],
          .ok (.successBox ("**Diagnostic Suggestions:**") (.str s)))) ∧
    (∀ o, imageFailureOutcome o = true →
      ∃ s, troubleshooting_assistant_image o =
        ([.imageCall LLAMA_IMAGE_API_URL ("image_file") ("image.png") ("image/png")],
          .ok (.successBox ("**Image Analysis:**") (.str s)))) ∧
    (∀ summary o, analyzeFailureOutcome o = true →
      ∃ s, network_insights_analyze summary o =
        ([.textCall LLAMA_TEXT_API_URL ⟨"llama-3.2-analysis", analysisPromptOf summary, 200, 1/2⟩],
          .ok (.successBox ("**Analysis Results:**") (.str s)))) ∧
    (∀ report (hasImg : Bool) tOut iOut, report ≠ "" → hasImg = true →
      textFailureOutcome tOut = true →
      ∃ s, (connectivity_solutions report hasImg tOut iOut).2 =
        .successBox ("**Recommendations:**") (.str s)) := by
  refine ⟨?_, ?_, ?_, by decide, by decide, ?_, ?_, ?_, ?_⟩
  · intro text model o h
    obtain ⟨t, ht⟩ := text_failure_string text model o h
    obtain ⟨s, h1, h2, h3, _⟩ := failure_result_shape _ t ht
    exact ⟨s, h1, h2, h3⟩
  · intro model o h
    obtain ⟨t, ht⟩ := image_failure_string model o h
    obtain ⟨s, h1, h2, h3, _⟩ := failure_result_shape _ t ht
    exact ⟨s, h1, h2, h3⟩
  · intro summary model o h
    obtain ⟨t, ht⟩ := analyze_failure_string summary model o h
    obtain ⟨s, h1, h2, h3, _⟩ := failure_result_shape _ t ht
    exact ⟨s, h1, h2, h3⟩
  · intro text o htext hfail
    obtain ⟨t, ht⟩ := text_failure_string text ("llama-3.2-chat") o hfail
    obtain ⟨s, hres, hpre, hnot, _⟩ := failure_result_shape _ t ht
    refine ⟨s, ?_⟩
    rw [troubleshooting_assistant_text, if_pos htext, hres]
    simp only [Json.pyStartswith]
    rw [hnot]
    rfl
  · intro o hfail
    obtain ⟨t, ht⟩ := image_failure_string ("llama-3.2-image") o hfail
    obtain ⟨s, hres, hpre, hnot, _⟩ := failure_result_shape _ t ht
    refine ⟨s, ?_⟩
    rw [troubleshooting_assistant_image, hres]
    simp only [Json.pyStartswith]
    rw [hnot]
    rfl
  · intro summary o hfail
    obtain ⟨t, ht⟩ := analyze_failure_string summary ("llama-3.2-analysis") o hfail
    obtain ⟨s, hres, hpre, hnot, _⟩ := failure_result_shape _ t ht
    refine ⟨s, ?_⟩
    rw [network_insights_analyze, hres]
    simp only [Json.pyStartswith]
    rw [hnot]
    rfl
  · intro report hasImg tOut iOut hrep himg hfail
    subst himg
    obtain ⟨t, ht⟩ := text_failure_string report ("llama-3.2-chat") tOut hfail
    obtain ⟨s, hres, hpre, hnot, hlen⟩ := failure_result_shape _ t ht
    refine ⟨s ++ "\n\n" ++ (get_llama_image_response ("llama-3.2-image") iOut).2.pyStr, ?_⟩
    have hcond : report ≠ "" ∧ (true : Bool) = true := ⟨hrep, rfl⟩
    rw [connectivity_solutions, if_pos hcond, hres, pyStr_str]
    have hfalse := sw_false_two_appends s
      ((get_llama_image_response ("llama-3.2-image") iOut).2.pyStr) ("Error") hnot hlen
    simp only [hfalse, Bool.false_eq_true, if_false]

/-- Witness for C10: the text client at a concrete transport exception,
and the Connectivity Solutions screen with a failing text sub-call,
rendered through the success path. -/
theorem C10_client_error_strings_avoid_error_branch_witness :
    (∃ s, (get_llama_text_response ("p") ("llama-3.2-chat") (.exc ("boom2"))).2 = .str s ∧
      (strStartswith s ("HTTP error occurred: ") = true ∨
        strStartswith s ("An error occurred: ") = true) ∧
      strStartswith s ("Error") = false) ∧
    (∃ s, (connectivity_solutions ("report") true (.exc ("boom2")) (.exc ("bam2"))).2 =
      .successBox ("**Recommendations:**") (.str s)) :=
  ⟨C10_client_error_strings_avoid_error_branch.1 ("p") ("llama-3.2-chat") (.exc ("boom2")) rfl,
   C10_client_error_strings_avoid_error_branch.2.2.2.2.2.2.2.2 ("report") true
     (.exc ("boom2")) (.exc ("bam2")) (by decide) rfl rfl⟩

/-- C1 (code bug): on Connectivity Solutions, a failing text sub-call
(HTTP 404) yields a combined string starting with "HTTP error occurred",
yet the screen's guard `startswith("Error")` does not match it, so the
combined output is rendered through `st.success`, not presented as an
error as the specification describes. -/
theorem C1_connectivity_error_not_flagged :
    textFailureOutcome (.response ⟨404, "Not Found", LLAMA_TEXT_API_URL, "denied",
      .error ("Expecting value: line 1 column 1 (char 0)")⟩) = true ∧
    (connectivity_solutions ("Router offline") true
      (.response ⟨404, "Not Found", LLAMA_TEXT_API_URL, "denied",
        .error ("Expecting value: line 1 column 1 (char 0)")⟩)
      (.response ⟨200, "OK", LLAMA_IMAGE_API_URL, "imgbody",
        .ok (.obj [("response", .str ("Use a repeater."))])⟩)).2
      = .successBox ("**Recommendations:**")
          (.str ("HTTP error occurred: 404 Client Error: Not Found for url: https://api.groq.com/openai/v1/chat/completions - denied\n\nUse a repeater.")) ∧
    strStartswith
      ("HTTP error occurred: 404 Client Error: Not Found for url: https://api.groq.com/openai/v1/chat/completions - denied\n\nUse a repeater.")
      ("HTTP error occurred") = true := by
  exact ⟨rfl, rfl, by decide⟩
